import Mathlib

/-!
Verification of the context-threading and circuit-dispatch harness of the
compact-tools simulator package (packages/simulator).

The data model and operations below are a shallow embedding of the TypeScript
sources.  Runtime-library values that the harness only passes around
(state values, coin records, cost models, addresses, coin public keys) are
modelled opaquely: state payloads by a type parameter, coin records by Nat,
addresses and coin public keys by String.

The files src/core/CircuitContextManager.ts and src/core/ContractSimulator.ts
are not part of the corpus (only their callers and unit tests are); the
operations they provide are modelled from the specification, and each such
definition is marked `Modelled from the spec:` in its doc comment.
-/

namespace CompactSim

/-- Runtime boundary: a ChargedState wraps a state value (payload modelled by
the type parameter S) with cost tracking. -/
structure ChargedState (S : Type) where
  state : S
deriving DecidableEq

/-- Runtime boundary: a QueryContext is a public-state snapshot (a ChargedState)
together with the owning contract's address. -/
structure QueryContext (S : Type) where
  state : ChargedState S
  address : String
deriving DecidableEq

/-- Runtime boundary: the zswap local state is the transaction-scoped record of
the sender's coin public key, the current index, and the accumulated input and
output coin records (coin records are opaque to the harness, modelled by Nat). -/
structure ZswapLocalState where
  coinPublicKey : String
  currentIndex : Nat
  inputs : List Nat
  outputs : List Nat
deriving DecidableEq

/-- Runtime boundary: emptyZswapLocalState, the fresh local-state baseline for a
sender: no inputs, no outputs, index 0, coin public key equal to the sender.
This shape is pinned down by the repository's CircuitContextManager constructor
test ("should set zswap local state"). -/
def emptyZswapLocalState (sender : String) : ZswapLocalState :=
  { coinPublicKey := sender, currentIndex := 0, inputs := [], outputs := [] }

/-- Runtime boundary: the cost model is an opaque accounting configuration. -/
structure CostModel where
  model : Nat
deriving DecidableEq

/-- Runtime boundary: CostModel.initialCostModel, the distinguished initial
cost model. -/
def CostModel.initialCostModel : CostModel :=
  { model := 0 }

/-- Runtime boundary: dummyContractAddress, the deterministic placeholder
contract address used when no explicit address is supplied. -/
def dummyContractAddress : String :=
  String.mk (List.replicate 64 '0')

/-- CircuitContext (the Context Value threaded between circuit calls): private
state, query state, zswap local state, cost model, and the optional gas limit. -/
structure CircuitContext (P S : Type) where
  currentPrivateState : P
  currentQueryContext : QueryContext S
  currentZswapLocalState : ZswapLocalState
  costModel : CostModel
  gasLimit : Option Nat
deriving DecidableEq

variable {P S A R V L : Type}

/-- useCircuitContext (src/packages/simulator/src/utils/CircuitContextUtils.ts,
lines 24-36): builds a fresh CircuitContext from a private state, a charged
state, a sender and a contract address.  The source object literal carries no
gasLimit field, so the gas limit is absent. -/
def useCircuitContext (privateState : P) (chargedState : ChargedState S)
    (sender : String) (contractAddress : String) : CircuitContext P S where
  currentPrivateState := privateState
  currentQueryContext := { state := chargedState, address := contractAddress }
  currentZswapLocalState := emptyZswapLocalState sender
  costModel := CostModel.initialCostModel
  gasLimit := none

/-- The slice of the IContractSimulator interface that useCircuitContextSender
reads: the current circuit context and the simulator's contract address. -/
structure IContractSimulator (P S : Type) where
  circuitContext : CircuitContext P S
  contractAddress : String
deriving DecidableEq

/-- Modelled from the spec: ContractSimulator.getPrivateState
(src/core/ContractSimulator.ts is not part of the corpus).  The spec's
rebuild operation "keeps the existing private state", so getPrivateState
returns the private state of the current context. -/
def IContractSimulator.getPrivateState (contract : IContractSimulator P S) : P :=
  contract.circuitContext.currentPrivateState

/-- useCircuitContextSender (src/packages/simulator/src/utils/CircuitContextUtils.ts,
lines 46-66): rebuilds a context for a new sender.  It keeps the current
context's charged state, private state, cost model and gas limit, installs a
fresh empty local state for the sender, and rebuilds the query context at the
simulator's contract address. -/
def useCircuitContextSender (contract : IContractSimulator P S)
    (sender : String) : CircuitContext P S :=
  let currentCircuitContext := contract.circuitContext
  let currentPrivateState := contract.getPrivateState
  let existingChargedState := currentCircuitContext.currentQueryContext.state
  let contractAddress := contract.contractAddress
  { currentPrivateState := currentPrivateState
    currentQueryContext := { state := existingChargedState, address := contractAddress }
    currentZswapLocalState := emptyZswapLocalState sender
    costModel := currentCircuitContext.costModel
    gasLimit := currentCircuitContext.gasLimit }

/-- C1: for every simulator instance and every sender key, the context produced
by useCircuitContextSender keeps the current context's charged state, cost
model, gas limit and private state unchanged, and its local state is the empty
zswap-local-state baseline for the new sender. -/
theorem useCircuitContextSender_frame (contract : IContractSimulator P S)
    (sender : String) :
    (useCircuitContextSender contract sender).currentQueryContext.state
        = contract.circuitContext.currentQueryContext.state
    ∧ (useCircuitContextSender contract sender).costModel
        = contract.circuitContext.costModel
    ∧ (useCircuitContextSender contract sender).gasLimit
        = contract.circuitContext.gasLimit
    ∧ (useCircuitContextSender contract sender).currentPrivateState
        = contract.circuitContext.currentPrivateState
    ∧ (useCircuitContextSender contract sender).currentZswapLocalState
        = emptyZswapLocalState sender :=
  ⟨rfl, rfl, rfl, rfl, rfl⟩

/-- C8: a freshly constructed Context Value has an empty local-state
accumulation (no inputs, no outputs, index 0, coin public key equal to the
sender) and the initial cost model, with no prior cost model carried over. -/
theorem useCircuitContext_fresh (p : P) (cs : ChargedState S)
    (sender addr : String) :
    (useCircuitContext p cs sender addr).currentZswapLocalState.inputs = []
    ∧ (useCircuitContext p cs sender addr).currentZswapLocalState.outputs = []
    ∧ (useCircuitContext p cs sender addr).currentZswapLocalState.currentIndex = 0
    ∧ (useCircuitContext p cs sender addr).currentZswapLocalState.coinPublicKey
        = sender
    ∧ (useCircuitContext p cs sender addr).currentZswapLocalState
        = emptyZswapLocalState sender
    ∧ (useCircuitContext p cs sender addr).costModel = CostModel.initialCostModel :=
  ⟨rfl, rfl, rfl, rfl, rfl, rfl⟩

/-- Modelled from the spec: CircuitContextManager
(src/core/CircuitContextManager.ts is not part of the corpus).  It owns exactly
one current Context Value per simulator instance (spec section 4.1). -/
structure CircuitContextManager (P S : Type) where
  context : CircuitContext P S
deriving DecidableEq

/-- Modelled from the spec: getContext returns the current value with no side
effects (spec section 4.1). -/
def CircuitContextManager.getContext (m : CircuitContextManager P S) :
    CircuitContext P S :=
  m.context

/-- Modelled from the spec: setContext is an unconditional replace with no
validation beyond type shape (spec section 4.1); the unit test in the corpus
exercises it with a context whose query-context address differs from the
construction address and expects the replacement to take effect wholesale. -/
def CircuitContextManager.setContext (m : CircuitContextManager P S)
    (newValue : CircuitContext P S) : CircuitContextManager P S :=
  { m with context := newValue }

/-- Modelled from the spec: updatePrivateState replaces only the private-state
field of the current context (spec section 4.1). -/
def CircuitContextManager.updatePrivateState (m : CircuitContextManager P S)
    (newPrivateState : P) : CircuitContextManager P S :=
  { m with context := { m.context with currentPrivateState := newPrivateState } }

/-- Modelled from the spec: rebuildForSender keeps the existing public-state
payload, cost model and private state, and replaces the local state with a
fresh baseline tagged with the new sender identity (spec section 4.1). -/
def CircuitContextManager.rebuildForSender (m : CircuitContextManager P S)
    (sender : String) : CircuitContextManager P S :=
  { m with context :=
      { m.context with currentZswapLocalState := emptyZswapLocalState sender } }

/-- Modelled from the spec: the CircuitContextManager constructor builds the
initial context from the contract's initial charged state, the initial private
state, the sender, and the contract address through the single initialization
path useCircuitContext (spec sections 3 and 4.3). -/
def CircuitContextManager.init (initialState : ChargedState S) (privateState : P)
    (coinPK : String) (contractAddress : String) : CircuitContextManager P S :=
  { context := useCircuitContext privateState initialState coinPK contractAddress }

/-- The mutating Context Manager operations of spec section 4.1. -/
inductive ManagerOp (P S : Type) where
  | setContext (newValue : CircuitContext P S)
  | updatePrivateState (newPrivateState : P)
  | rebuildForSender (sender : String)

/-- Whether a manager operation is a setContext. -/
def ManagerOp.isSetContext : ManagerOp P S → Bool
  | .setContext _ => true
  | _ => false

/-- Interpretation of one manager operation. -/
def CircuitContextManager.applyOp (m : CircuitContextManager P S) :
    ManagerOp P S → CircuitContextManager P S
  | .setContext c => m.setContext c
  | .updatePrivateState p => m.updatePrivateState p
  | .rebuildForSender sender => m.rebuildForSender sender

/-- Interpretation of a sequence of manager operations, first operation first. -/
def CircuitContextManager.applyOps (m : CircuitContextManager P S)
    (ops : List (ManagerOp P S)) : CircuitContextManager P S :=
  ops.foldl CircuitContextManager.applyOp m

/-- A concrete manager built exactly as the repository's CircuitContextManager
unit test builds one: empty-record private state (modelled by Unit), the
deployer sender, and the dummy placeholder address. -/
def mgrC2 : CircuitContextManager Unit Nat :=
  CircuitContextManager.init { state := 7 } () "aa" dummyContractAddress

/-- A well-shaped replacement context whose query-context address differs from
the construction address, mirroring the setContext unit test in the corpus. -/
def ctxOtherC2 : CircuitContext Unit Nat :=
  { currentPrivateState := ()
    currentQueryContext := { state := { state := 7 }, address := "otherAddress" }
    currentZswapLocalState := emptyZswapLocalState "goldenFace"
    costModel := CostModel.initialCostModel
    gasLimit := none }

/-- C2 counterexample: setContext is an unconditional replace, so a single
setContext with a well-shaped context carrying a different query-context
address changes queryState.address away from the construction address —
exactly the scenario of the repository's own setContext unit test. -/
theorem setContext_changes_queryState_address :
    (mgrC2.applyOps [ManagerOp.setContext ctxOtherC2]).getContext.currentQueryContext.address
      ≠ mgrC2.getContext.currentQueryContext.address := by
  decide

/-- C2 (amended): the query-context address is invariant under every sequence
of manager operations that contains no setContext (updatePrivateState and
rebuildForSender never touch it); setContext, by contrast, replaces the whole
context unconditionally and can install a different address. -/
theorem queryState_address_stable_without_setContext
    (m : CircuitContextManager P S) (ops : List (ManagerOp P S))
    (h : ∀ op ∈ ops, op.isSetContext = false) :
    (m.applyOps ops).getContext.currentQueryContext.address
      = m.getContext.currentQueryContext.address := by
  induction ops generalizing m with
  | nil => rfl
  | cons op ops ih =>
    have hop : op.isSetContext = false := h op (List.mem_cons_self op ops)
    have hrest : ∀ o ∈ ops, o.isSetContext = false :=
      fun o ho => h o (List.mem_cons_of_mem op ho)
    cases op with
    | setContext c => simp [ManagerOp.isSetContext] at hop
    | updatePrivateState p =>
      exact (ih (m.updatePrivateState p) hrest).trans rfl
    | rebuildForSender sender =>
      exact (ih (m.rebuildForSender sender) hrest).trans rfl

/-- Witness for the amended C2 theorem at a concrete manager and a concrete
setContext-free operation sequence. -/
theorem queryState_address_stable_witness :
    (mgrC2.applyOps
        [ManagerOp.updatePrivateState (), ManagerOp.rebuildForSender "cc"]).getContext.currentQueryContext.address
      = mgrC2.getContext.currentQueryContext.address :=
  queryState_address_stable_without_setContext mgrC2
    [ManagerOp.updatePrivateState (), ManagerOp.rebuildForSender "cc"]
    (by decide)

/-- One impure-circuit invocation: the artifact's circuit callable for the call
together with its arguments.  Per the external-interface boundary (spec
section 6) an impure callable maps a context and arguments to the pair of the
updated context and the business result. -/
structure ImpureCall (P S A R : Type) where
  circuit : CircuitContext P S → A → CircuitContext P S × R
  args : A

/-- One pure-circuit invocation.  The engine may produce a context artifact
next to the business result; the dispatcher discards it. -/
structure PureCall (P S A R : Type) where
  circuit : CircuitContext P S → A → R × CircuitContext P S
  args : A

/-- Modelled from the spec: the impure call protocol of the circuit dispatcher
(ContractSimulator.createImpureCircuitProxy of src/core/ContractSimulator.ts is
not part of the corpus; its wiring is createSimulator.ts lines 103-117): read
the current context, invoke the engine, commit the returned context through the
manager, and return the business value (spec section 4.2). -/
def impureCall (m : CircuitContextManager P S) (c : ImpureCall P S A R) :
    CircuitContextManager P S × R :=
  let ctx := m.getContext
  let res := c.circuit ctx c.args
  (m.setContext res.1, res.2)

/-- Modelled from the spec: the pure call protocol of the circuit dispatcher
(ContractSimulator.createPureCircuitProxy of src/core/ContractSimulator.ts is
not part of the corpus; its wiring is createSimulator.ts lines 85-96): read the
current context, invoke the engine, return only the business value; the context
artifact the engine returns is discarded and nothing is committed (spec
section 4.2). -/
def pureCall (m : CircuitContextManager P S) (c : PureCall P S A R) :
    CircuitContextManager P S × R :=
  (m, (c.circuit m.getContext c.args).1)

/-- A call through either dispatcher surface of one simulator. -/
inductive Call (P S A R : Type) where
  | pureC (c : PureCall P S A R)
  | impureC (c : ImpureCall P S A R)

/-- Running one call against the manager, returning the manager afterwards and
the business result. -/
def runCall (m : CircuitContextManager P S) :
    Call P S A R → CircuitContextManager P S × R
  | .pureC c => pureCall m c
  | .impureC c => impureCall m c

/-- Running a list of calls in order, returning the final manager. -/
def runCalls (m : CircuitContextManager P S) :
    List (Call P S A R) → CircuitContextManager P S
  | [] => m
  | c :: cs => runCalls (runCall m c).1 cs

/-- The sequence of (context read, context committed) pairs produced by running
a list of impure calls in order through one manager. -/
def impureTrace (m : CircuitContextManager P S) :
    List (ImpureCall P S A R) → List (CircuitContext P S × CircuitContext P S)
  | [] => []
  | c :: cs =>
    let read := m.getContext
    let committed := (c.circuit read c.args).1
    (read, committed) :: impureTrace (m.setContext committed) cs

theorem impureTrace_cons (m : CircuitContextManager P S) (c : ImpureCall P S A R)
    (cs : List (ImpureCall P S A R)) :
    impureTrace m (c :: cs)
      = (m.getContext, (c.circuit m.getContext c.args).1)
        :: impureTrace (m.setContext (c.circuit m.getContext c.args).1) cs :=
  rfl

theorem impureTrace_get_zero_fst (m : CircuitContextManager P S)
    (cs : List (ImpureCall P S A R)) (h : 0 < (impureTrace m cs).length) :
    ((impureTrace m cs).get ⟨0, h⟩).1 = m.getContext := by
  cases cs with
  | nil => simp [impureTrace] at h
  | cons c cs => rfl

/-- C3: sequential consistency of the impure path — in the trace of any impure
call sequence, the context read by call i+1 is exactly the context committed by
call i, and the context a call commits becomes the manager's current context
before the call returns. -/
theorem impure_sequential_consistency (m : CircuitContextManager P S)
    (cs : List (ImpureCall P S A R)) (i : Nat)
    (h : i + 1 < (impureTrace m cs).length) :
    ((impureTrace m cs).get ⟨i + 1, h⟩).1
        = ((impureTrace m cs).get ⟨i, Nat.lt_of_succ_lt h⟩).2
    ∧ ∀ (m2 : CircuitContextManager P S) (c : ImpureCall P S A R),
        (impureCall m2 c).1.getContext = (c.circuit m2.getContext c.args).1 := by
  refine ⟨?_, fun m2 c => rfl⟩
  induction cs generalizing m i with
  | nil => simp [impureTrace] at h
  | cons c cs ih =>
    cases i with
    | zero =>
      have h2 : 0 < (impureTrace
          (m.setContext (c.circuit m.getContext c.args).1) cs).length := by
        have := h
        rw [impureTrace_cons, List.length_cons] at this
        omega
      exact impureTrace_get_zero_fst _ cs h2
    | succ n =>
      have h2 : n + 1 < (impureTrace
          (m.setContext (c.circuit m.getContext c.args).1) cs).length := by
        have := h
        rw [impureTrace_cons, List.length_cons] at this
        omega
      exact ih (m.setContext (c.circuit m.getContext c.args).1) n h2

/-- A concrete manager and two concrete impure calls for the C3 witness. -/
def mgrC3 : CircuitContextManager Nat Nat :=
  CircuitContextManager.init { state := 0 } 0 "aa" dummyContractAddress

/-- First concrete impure call: write 5 into the charged state. -/
def callC3a : ImpureCall Nat Nat Nat Nat :=
  { circuit := fun ctx n =>
      ({ ctx with currentQueryContext := { ctx.currentQueryContext with state := { state := n } } }, n)
    args := 5 }

/-- Second concrete impure call: add 1 to the private state. -/
def callC3b : ImpureCall Nat Nat Nat Nat :=
  { circuit := fun ctx _ =>
      ({ ctx with currentPrivateState := ctx.currentPrivateState + 1 }, 0)
    args := 0 }

/-- Witness for C3 at a concrete manager, a concrete two-call sequence, and
index 0. -/
theorem impure_sequential_consistency_witness :
    ((impureTrace mgrC3 [callC3a, callC3b]).get ⟨1, by decide⟩).1
      = ((impureTrace mgrC3 [callC3a, callC3b]).get ⟨0, by decide⟩).2 :=
  (impure_sequential_consistency mgrC3 [callC3a, callC3b] 0 (by decide)).1

/-- C4: the pure path never changes the context — running a pure call leaves
the manager exactly as it was, whatever the engine returns, so every subsequent
call sequence (pure or impure) observes the same context, including the same
private state, as if the pure call had not happened. -/
theorem pure_call_isolation (m : CircuitContextManager P S)
    (c : PureCall P S A R) :
    (runCall m (Call.pureC c)).1 = m
    ∧ ∀ cs : List (Call P S A R),
        runCalls (runCall m (Call.pureC c)).1 cs = runCalls m cs :=
  ⟨rfl, fun _ => rfl⟩

/-- An opaque compiled contract artifact.  The harness reads from it only the
initial charged state consumed at manager construction; circuit dispatch over
its callables is modelled at the dispatcher level above. -/
structure Contract (S : Type) where
  initialChargedState : ChargedState S
deriving DecidableEq

/-- SimulatorConfig (src/packages/simulator/src/factory/SimulatorConfig.ts):
the factory configuration.  Witness tables are modelled as total maps from
witness name to implementation (implementations opaque, type V); the
contract-argument transform is dropped because the modelled manager
constructor consumes the contract's initial charged state directly. -/
structure SimulatorConfig (P S V L : Type) where
  contractFactory : (String → V) → Contract S
  defaultPrivateState : P
  witnessesFactory : String → V
  ledgerExtractor : S → L

/-- BaseSimulatorOptions (the options boundary of the factory): every field is
optional. -/
structure BaseSimulatorOptions (P V : Type) where
  privateState : Option P := none
  witnesses : Option (String → V) := none
  coinPK : Option String := none
  contractAddress : Option String := none

/-- The option-resolution step of the GeneratedSimulator constructor
(src/packages/simulator/src/factory/createSimulator.ts lines 48-53): each
omitted field falls back to its fixed default — config.defaultPrivateState(),
config.witnessesFactory(), the 64-zero-character sender, and
dummyContractAddress(). -/
def resolveOptions (cfg : SimulatorConfig P S V L)
    (options : BaseSimulatorOptions P V) : P × (String → V) × String × String :=
  (options.privateState.getD cfg.defaultPrivateState,
   options.witnesses.getD cfg.witnessesFactory,
   options.coinPK.getD (String.mk (List.replicate 64 '0')),
   options.contractAddress.getD dummyContractAddress)

/-- The state of one GeneratedSimulator instance
(src/packages/simulator/src/factory/createSimulator.ts).  The two lazily
cached dispatcher proxies are modelled by allocation identifiers: every proxy
construction consumes a fresh identifier below nextProxyId, so distinct
constructions are distinguishable, mirroring TypeScript object identity.  The
configuration the generated class closes over is carried in the state. -/
structure SimulatorState (P S V L : Type) where
  cfg : SimulatorConfig P S V L
  witnesses : String → V
  contract : Contract S
  pureProxyId : Option Nat
  impureProxyId : Option Nat
  nextProxyId : Nat
  manager : CircuitContextManager P S
  contractAddress : String

/-- The GeneratedSimulator constructor (createSimulator.ts lines 42-69):
resolve the options, build the contract artifact from the resolved witness
table, construct the context manager, and assign the contractAddress field
from the fresh context's query-context address. -/
def createSimulatorInstance (cfg : SimulatorConfig P S V L)
    (options : BaseSimulatorOptions P V) : SimulatorState P S V L :=
  let r := resolveOptions cfg options
  let privateState := r.1
  let witnesses := r.2.1
  let coinPK := r.2.2.1
  let contractAddress := r.2.2.2
  let contract := cfg.contractFactory witnesses
  let manager := CircuitContextManager.init contract.initialChargedState
    privateState coinPK contractAddress
  { cfg := cfg
    witnesses := witnesses
    contract := contract
    pureProxyId := none
    impureProxyId := none
    nextProxyId := 0
    manager := manager
    contractAddress := manager.getContext.currentQueryContext.address }

/-- The pureCircuit getter (createSimulator.ts lines 85-96): return the cached
proxy if present, otherwise build a fresh proxy (a fresh allocation
identifier) and cache it. -/
def getPureCircuit (s : SimulatorState P S V L) : SimulatorState P S V L × Nat :=
  match s.pureProxyId with
  | some pid => (s, pid)
  | none =>
    ({ s with pureProxyId := some s.nextProxyId, nextProxyId := s.nextProxyId + 1 },
     s.nextProxyId)

/-- The impureCircuit getter (createSimulator.ts lines 103-117): return the
cached proxy if present, otherwise build a fresh proxy (a fresh allocation
identifier) and cache it. -/
def getImpureCircuit (s : SimulatorState P S V L) : SimulatorState P S V L × Nat :=
  match s.impureProxyId with
  | some pid => (s, pid)
  | none =>
    ({ s with impureProxyId := some s.nextProxyId, nextProxyId := s.nextProxyId + 1 },
     s.nextProxyId)

/-- resetCircuitProxies (createSimulator.ts lines 134-137): drop both cached
proxies, forcing re-initialization on next access. -/
def resetCircuitProxies (s : SimulatorState P S V L) : SimulatorState P S V L :=
  { s with pureProxyId := none, impureProxyId := none }

/-- The witnesses setter (createSimulator.ts lines 165-169): store the new
table, rebuild the contract artifact from it, and reset both cached proxies. -/
def setWitnesses (s : SimulatorState P S V L) (newWitnesses : String → V) :
    SimulatorState P S V L :=
  resetCircuitProxies
    { s with witnesses := newWitnesses
             contract := s.cfg.contractFactory newWitnesses }

/-- overrideWitness (createSimulator.ts lines 177-182): replace exactly one
entry through the witnesses setter; the TypeScript object spread with a
computed key is modelled as the pointwise update of the table. -/
def overrideWitness (s : SimulatorState P S V L) (key : String) (fn : V) :
    SimulatorState P S V L :=
  setWitnesses s (fun k => if k = key then fn else s.witnesses k)

/-- getPublicState (createSimulator.ts lines 144-148): apply the configured
ledger extractor to the current context's public-state payload.  The
circuitContext accessor of the missing ContractSimulator base class is
modelled from the spec as reading the manager's current context. -/
def getPublicState (s : SimulatorState P S V L) : L :=
  s.cfg.ledgerExtractor s.manager.getContext.currentQueryContext.state.state

/-- The mutating operations available on one simulator instance after
construction:  the three manager operations, the two witness-management
operations, the two lazy dispatcher accesses, and the commit step of an
impure call (an arbitrary engine-produced context installed through
setContext). -/
inductive SimOp (P S V : Type) where
  | setContext (newValue : CircuitContext P S)
  | updatePrivateState (newPrivateState : P)
  | rebuildForSender (sender : String)
  | setWitnesses (newWitnesses : String → V)
  | overrideWitness (key : String) (fn : V)
  | accessPure
  | accessImpure
  | impureCommit (engine : CircuitContext P S → CircuitContext P S)

/-- Interpretation of one simulator operation. -/
def SimulatorState.applyOp (s : SimulatorState P S V L) :
    SimOp P S V → SimulatorState P S V L
  | .setContext c => { s with manager := s.manager.setContext c }
  | .updatePrivateState p => { s with manager := s.manager.updatePrivateState p }
  | .rebuildForSender sender => { s with manager := s.manager.rebuildForSender sender }
  | .setWitnesses w => setWitnesses s w
  | .overrideWitness key fn => overrideWitness s key fn
  | .accessPure => (getPureCircuit s).1
  | .accessImpure => (getImpureCircuit s).1
  | .impureCommit engine =>
      { s with manager := s.manager.setContext (engine s.manager.getContext) }

/-- Interpretation of a sequence of simulator operations, first operation
first. -/
def SimulatorState.applyOps (s : SimulatorState P S V L)
    (ops : List (SimOp P S V)) : SimulatorState P S V L :=
  ops.foldl SimulatorState.applyOp s

/-- A concrete factory configuration used by the closed instances below. -/
def cfgEx : SimulatorConfig Nat Nat Nat Nat :=
  { contractFactory := fun w => { initialChargedState := { state := w "init" } }
    defaultPrivateState := 3
    witnessesFactory := fun _ => 0
    ledgerExtractor := fun s => s + 1 }

/-- A concrete simulator with both dispatcher proxies already accessed and
cached (impure proxy id 0, pure proxy id 1, next fresh id 2). -/
def simC5 : SimulatorState Nat Nat Nat Nat :=
  (createSimulatorInstance cfgEx {}).applyOps [SimOp.accessImpure, SimOp.accessPure]

/-- C5: the witnesses setter rebuilds the contract artifact from the new table
and clears both cached dispatcher proxies, so the next access to impureCircuit
(or pureCircuit) yields a proxy distinct from the one cached before the
replacement.  The hypotheses say that iOld is the proxy cached before the
replacement; in the allocation-id model every already-created proxy has an id
below nextProxyId. -/
theorem witness_replacement_invalidates (s : SimulatorState P S V L)
    (newW : String → V) (iOld : Nat)
    (_hImp : s.impureProxyId = some iOld) (hLt : iOld < s.nextProxyId) :
    (setWitnesses s newW).contract = s.cfg.contractFactory newW
    ∧ (setWitnesses s newW).witnesses = newW
    ∧ (setWitnesses s newW).pureProxyId = none
    ∧ (setWitnesses s newW).impureProxyId = none
    ∧ (getImpureCircuit (setWitnesses s newW)).2 ≠ iOld
    ∧ ∀ pOld, s.pureProxyId = some pOld → pOld < s.nextProxyId →
        (getPureCircuit (setWitnesses s newW)).2 ≠ pOld := by
  refine ⟨rfl, rfl, rfl, rfl, ?_, ?_⟩
  · show s.nextProxyId ≠ iOld
    omega
  · intro pOld hp hlt
    show s.nextProxyId ≠ pOld
    omega

/-- Witness for C5 at the concrete cached simulator simC5. -/
theorem witness_replacement_invalidates_witness :
    (getImpureCircuit (setWitnesses simC5 (fun _ => 9))).2 ≠ 0
    ∧ (getPureCircuit (setWitnesses simC5 (fun _ => 9))).2 ≠ 1 :=
  ⟨(witness_replacement_invalidates simC5 (fun _ => 9) 0 rfl (by decide)).2.2.2.2.1,
   (witness_replacement_invalidates simC5 (fun _ => 9) 0 rfl
      (by decide)).2.2.2.2.2 1 rfl (by decide)⟩

/-- C6: overrideWitness produces the table that maps the overridden key to the
new function and every other key to its previous entry, and it goes through
the witnesses setter, so the contract is rebuilt from the new table and both
cached dispatcher proxies are cleared. -/
theorem overrideWitness_correct (s : SimulatorState P S V L) (key : String)
    (fn : V) :
    (overrideWitness s key fn).witnesses key = fn
    ∧ (∀ k, k ≠ key → (overrideWitness s key fn).witnesses k = s.witnesses k)
    ∧ overrideWitness s key fn
        = setWitnesses s (fun k => if k = key then fn else s.witnesses k)
    ∧ (overrideWitness s key fn).contract
        = s.cfg.contractFactory (overrideWitness s key fn).witnesses
    ∧ (overrideWitness s key fn).pureProxyId = none
    ∧ (overrideWitness s key fn).impureProxyId = none := by
  refine ⟨?_, fun k hk => ?_, rfl, rfl, rfl, rfl⟩
  · show (if key = key then fn else s.witnesses key) = fn
    exact if_pos rfl
  · show (if k = key then fn else s.witnesses k) = s.witnesses k
    exact if_neg hk

/-- Witness for C6 at a concrete simulator, key and non-overridden key. -/
theorem overrideWitness_correct_witness :
    (overrideWitness simC5 "alpha" 7).witnesses "beta"
      = simC5.witnesses "beta" :=
  (overrideWitness_correct simC5 "alpha" 7).2.1 "beta" (by decide)

/-- C7: each constructor option that is omitted resolves to its fixed default:
the private state to config.defaultPrivateState(), the witness table to
config.witnessesFactory(), the sender to the string of 64 zero hex characters,
and the contract address to dummyContractAddress(). -/
theorem constructor_defaults (cfg : SimulatorConfig P S V L)
    (options : BaseSimulatorOptions P V) :
    (options.privateState = none →
        (resolveOptions cfg options).1 = cfg.defaultPrivateState)
    ∧ (options.witnesses = none →
        (resolveOptions cfg options).2.1 = cfg.witnessesFactory)
    ∧ (options.coinPK = none →
        (resolveOptions cfg options).2.2.1 = String.mk (List.replicate 64 '0'))
    ∧ (options.contractAddress = none →
        (resolveOptions cfg options).2.2.2 = dummyContractAddress) := by
  refine ⟨fun h => ?_, fun h => ?_, fun h => ?_, fun h => ?_⟩ <;>
    simp [resolveOptions, h]

/-- Witness for C7 at the concrete configuration and the all-omitted options. -/
theorem constructor_defaults_witness :
    (resolveOptions cfgEx {}).1 = cfgEx.defaultPrivateState
    ∧ (resolveOptions cfgEx {}).2.1 = cfgEx.witnessesFactory
    ∧ (resolveOptions cfgEx {}).2.2.1 = String.mk (List.replicate 64 '0')
    ∧ (resolveOptions cfgEx {}).2.2.2 = dummyContractAddress :=
  ⟨(constructor_defaults cfgEx {}).1 rfl,
   (constructor_defaults cfgEx {}).2.1 rfl,
   (constructor_defaults cfgEx {}).2.2.1 rfl,
   (constructor_defaults cfgEx {}).2.2.2 rfl⟩

/-- C9: immediately after construction with default options, getPublicState
returns exactly the configured ledger extractor applied to the fresh context's
public-state payload — equivalently, to the contract's initial charged state —
and, being a pure function of the state in this model, it changes nothing. -/
theorem getPublicState_roundtrip (cfg : SimulatorConfig P S V L) :
    getPublicState (createSimulatorInstance cfg {})
      = cfg.ledgerExtractor
          ((createSimulatorInstance cfg {}).manager.getContext.currentQueryContext.state.state)
    ∧ getPublicState (createSimulatorInstance cfg {})
      = cfg.ledgerExtractor
          (cfg.contractFactory cfg.witnessesFactory).initialChargedState.state :=
  ⟨rfl, rfl⟩

theorem applyOp_preserves_contractAddress (s : SimulatorState P S V L)
    (op : SimOp P S V) : (s.applyOp op).contractAddress = s.contractAddress := by
  cases op with
  | accessPure =>
    simp only [SimulatorState.applyOp, getPureCircuit]
    split <;> rfl
  | accessImpure =>
    simp only [SimulatorState.applyOp, getImpureCircuit]
    split <;> rfl
  | setContext c => rfl
  | updatePrivateState p => rfl
  | rebuildForSender sender => rfl
  | setWitnesses w => rfl
  | overrideWitness key fn => rfl
  | impureCommit engine => rfl

/-- A concrete simulator built with default options for the C10 divergence
instance. -/
def simC10 : SimulatorState Nat Nat Nat Nat :=
  createSimulatorInstance cfgEx {}

/-- A well-shaped context carrying a query-context address different from the
construction-time address. -/
def ctxOtherC10 : CircuitContext Nat Nat :=
  { currentPrivateState := 3
    currentQueryContext := { state := { state := 0 }, address := "otherAddress" }
    currentZswapLocalState := emptyZswapLocalState "goldenFace"
    costModel := CostModel.initialCostModel
    gasLimit := none }

/-- C10: the contractAddress field is assigned exactly once, at construction,
from the fresh context's query-context address (the resolved option, by
default the dummy placeholder); no later operation updates it; and after a
setContext installing a context with a different query-context address the
field still holds the construction-time address and differs from
getContext().currentQueryContext.address. -/
theorem contractAddress_construction_only :
    (∀ (cfg : SimulatorConfig P S V L) (options : BaseSimulatorOptions P V),
        (createSimulatorInstance cfg options).contractAddress
            = (createSimulatorInstance cfg options).manager.getContext.currentQueryContext.address
        ∧ (createSimulatorInstance cfg options).contractAddress
            = (resolveOptions cfg options).2.2.2)
    ∧ (∀ (s : SimulatorState P S V L) (ops : List (SimOp P S V)),
        (s.applyOps ops).contractAddress = s.contractAddress)
    ∧ (simC10.applyOp (SimOp.setContext ctxOtherC10)).contractAddress
        = dummyContractAddress
    ∧ (simC10.applyOp (SimOp.setContext ctxOtherC10)).manager.getContext.currentQueryContext.address
        = "otherAddress"
    ∧ (simC10.applyOp (SimOp.setContext ctxOtherC10)).contractAddress
        ≠ (simC10.applyOp (SimOp.setContext ctxOtherC10)).manager.getContext.currentQueryContext.address := by
  refine ⟨fun cfg options => ⟨rfl, rfl⟩, ?_, rfl, rfl, by decide⟩
  intro s ops
  induction ops generalizing s with
  | nil => rfl
  | cons op ops ih =>
    exact (ih (s.applyOp op)).trans (applyOp_preserves_contractAddress s op)

end CompactSim
